import Mathlib

/-!
Verification of `snntorch/energy_estimation/model_statistics.py`
(`ModelStatistics`): a shallow embedding of the statistics aggregator
and proofs of the spec's claims about it.

Python unbounded integers are modelled as `Int`; Python floats arising
from division are modelled as exact rationals `ℚ`; the fallible
constructor (which raises `IndexError` on an empty layer list) is
modelled as an `Option`-returning function.
-/

namespace SnnTorch

/-- Modelled from the spec: the `Units` enum from `enums.py` (not under
`src/`): `AUTO` plus the three magnitude units and the "no unit"
sentinel `NONE`. -/
inductive Units where
  | AUTO
  | MEGABYTES
  | GIGABYTES
  | TERABYTES
  | NONE
deriving DecidableEq, Repr

/-- Modelled from the spec: the process-wide `CONVERSION_FACTORS`
lookup table from `FormattingOptions.py` (not under `src/`): the
mapping from unit enum to fixed divisor (§4.1 "Global unit-conversion
tables"). `MEGABYTES ↦ 1e6`, `GIGABYTES ↦ 1e9`, `TERABYTES ↦ 1e12`,
the "no unit" sentinel divides by 1. `to_readable` never consults the
table at `AUTO` (that branch is handled first), so its value there is
immaterial; we use 1. -/
def CONVERSION_FACTORS : Units → ℚ
  | Units.AUTO => 1
  | Units.MEGABYTES => 10 ^ 6
  | Units.GIGABYTES => 10 ^ 9
  | Units.TERABYTES => 10 ^ 12
  | Units.NONE => 1

/-- Modelled from the spec: the string form of a unit as interpolated
into `f" ({units_used})"` — the unit label, e.g. `"GIGABYTES"`
(spec §4.1: `": 12.34 (GIGABYTES)"` example shows the label text). -/
def unitsStr : Units → String
  | Units.AUTO => "AUTO"
  | Units.MEGABYTES => "MEGABYTES"
  | Units.GIGABYTES => "GIGABYTES"
  | Units.TERABYTES => "TERABYTES"
  | Units.NONE => "NONE"

/-- Modelled from the spec: one `LayerInfo` record (from
`layer_info.py`, not under `src/`), read-only from this core's
perspective, with exactly the fields/methods `ModelStatistics` reads
(§3 of the spec). The zero-argument methods `leftover_params()` and
`leftover_trainable_params()` are modelled as the integer values they
return. A `DeviceProfile` is consumed only through `str(...)`, so the
per-device energies are carried as `ℚ` and profiles as their string
representations. -/
structure LayerInfo where
  is_leaf_layer : Bool
  is_recursive : Bool
  num_params : Int
  trainable_params : Int
  macs : Int
  output_bytes : Int
  param_bytes : Int
  leftover_params : Int
  leftover_trainable_params : Int
  total_energy_contributions : List ℚ
deriving Repr

/-- The running totals mutated by the accumulation loop of
`ModelStatistics.__init__` (lines 28–30 initialise them to 0). -/
structure Totals where
  total_mult_adds : Int
  total_params : Int
  trainable_params : Int
  total_param_bytes : Int
  total_output_bytes : Int
deriving Repr, DecidableEq

/-- One iteration of the `for layer_info in summary_list` loop in
`ModelStatistics.__init__` (lines 38–55): leaf layers add `macs`
unconditionally, add `output_bytes * 2` when `num_params > 0`, and —
unless recursive — add `max(num_params, 0)`, `param_bytes` and
`max(trainable_params, 0)`; non-leaf layers, unless recursive, add the
clamped leftover parameter counts. -/
def accumulate_layer (t : Totals) (li : LayerInfo) : Totals :=
  if li.is_leaf_layer then
    let t1 := { t with total_mult_adds := t.total_mult_adds + li.macs }
    let t2 :=
      if li.num_params > 0 then
        { t1 with total_output_bytes := t1.total_output_bytes + li.output_bytes * 2 }
      else t1
    if li.is_recursive then t2
    else
      { t2 with
          total_params := t2.total_params + max li.num_params 0,
          total_param_bytes := t2.total_param_bytes + li.param_bytes,
          trainable_params := t2.trainable_params + max li.trainable_params 0 }
  else
    if li.is_recursive then t
    else
      { t with
          total_params := t.total_params + max li.leftover_params 0,
          trainable_params := t.trainable_params + max li.leftover_trainable_params 0 }

/-- The immutable snapshot built by `ModelStatistics.__init__`: the
stored layer list, device profiles (as their string forms), the seed
`total_energies` read from the first record, and the accumulated
totals. The opaque `input_size`, `total_input_size` and the formatting
collaborator (whose only constructor-time effect is the
`set_layer_name_width` layout call) carry no data any claim reads and
are omitted. -/
structure ModelStatistics where
  summary_list : List LayerInfo
  device_profiles : List String
  total_energies : List ℚ
  totals : Totals
deriving Repr

/-- `ModelStatistics.__init__` (lines 16–56): reads
`summary_list[0].total_energy_contributions` — which raises
`IndexError` on an empty list, modelled as `none` — then folds the
accumulation step over the whole list. No check compares
`device_profiles` against the seed energy list. -/
def modelStatisticsInit (summary_list : List LayerInfo)
    (device_profiles : List String) : Option ModelStatistics :=
  match summary_list with
  | [] => none
  | first :: _ =>
    some
      { summary_list := summary_list
        device_profiles := device_profiles
        total_energies := first.total_energy_contributions
        totals := summary_list.foldl accumulate_layer ⟨0, 0, 0, 0, 0⟩ }

/-- `ModelStatistics.to_readable` (lines 96–105): with `AUTO`, pick
terabytes/gigabytes/megabytes by descending thresholds; with an
explicit unit, divide by its fixed conversion factor and return the
unit unchanged. -/
def to_readable (num : ℚ) (units : Units) : Units × ℚ :=
  if units = Units.AUTO then
    if num ≥ 10 ^ 12 then (Units.TERABYTES, num / 10 ^ 12)
    else if num ≥ 10 ^ 9 then (Units.GIGABYTES, num / 10 ^ 9)
    else (Units.MEGABYTES, num / 10 ^ 6)
  else (units, num / CONVERSION_FACTORS units)

/-- Digit grouping for Python's `,` format specifier: given the digit
characters least-significant first, insert a `,` after every third
digit. -/
def groupAux : List Char → List Char
  | [] => []
  | [a] => [a]
  | [a, b] => [a, b]
  | [a, b, c] => [a, b, c]
  | a :: b :: c :: d :: rest => a :: b :: c :: ',' :: groupAux (d :: rest)

/-- Render a natural number with thousands separators, as Python's
`f"{n:,d}"` does for non-negative `n` (e.g. `1234 ↦ "1,234"`). -/
def commaNat (n : Nat) : String :=
  String.mk ((groupAux (Nat.toDigits 10 n).reverse).reverse)

/-- Render an integer with thousands separators, as Python's
`f"{n:,d}"` (sign, then grouped digits). -/
def commaInt (i : Int) : String :=
  (if i < 0 then "-" else "") ++ commaNat i.natAbs

/-- The integer nearest `100 * q`, rounding halves to even — the
rounding Python's `.2f` format specifier applies (here on the exact
rational value). Computed on the numerator/denominator with integer
floor division. -/
def round2HalfEven (q : ℚ) : ℤ :=
  let a : ℤ := q.num * 100
  let b : ℤ := (q.den : ℤ)
  let f := Int.fdiv a b
  let r := a - f * b
  if 2 * r < b then f
  else if b < 2 * r then f + 1
  else if f % 2 = 0 then f else f + 1

/-- Left-pad a two-digit fraction field with `0` (`5 ↦ "05"`). -/
def twoDigits (k : Nat) : String :=
  (if k < 10 then "0" else "") ++ toString k

/-- Render a rational with exactly two decimal places and thousands
separators, as Python's `f"{x:,.2f}"` (e.g. `1234.5 ↦ "1,234.50"`). -/
def format2f (q : ℚ) : String :=
  let m := round2HalfEven q
  (if m < 0 then "-" else "") ++
    commaNat (m.natAbs / 100) ++ "." ++ twoDigits (m.natAbs % 100)

/-- `ModelStatistics.format_output_num` (lines 107–114): resolve the
unit via `to_readable`; a whole converted value (Python
`converted_num.is_integer()`, here denominator 1) is rendered as an
integer (`,d`), otherwise with two decimals (`,.2f`); the unit label
`f" ({units_used})"` — empty for the `NONE` sentinel — is interpolated
BEFORE the `": "` in `f"{units_display}: {converted_num:,{fmt}}"`. -/
def format_output_num (num : ℚ) (units : Units) : String :=
  let p := to_readable num units
  let units_display :=
    if p.1 = Units.NONE then "" else " (" ++ unitsStr p.1 ++ ")"
  if p.2.den = 1 then units_display ++ ": " ++ commaInt p.2.num
  else units_display ++ ": " ++ format2f p.2

/-- The spec's description of the numeric rendering inside
`format_output_num`: integer rendering for whole converted values,
two-decimal rendering otherwise (used to state placement of the unit
label relative to the rendered number). -/
def renderedNum (q : ℚ) : String :=
  if q.den = 1 then commaInt q.num else format2f q

/-- Python's `f"{total_energy}"` — the raw, unformatted string of the
energy value (not passed through `format_output_num`); the float's
`str` is modelled as the string of the exact rational. -/
def ratStr (q : ℚ) : String :=
  toString q

/-- The energy-line portion of `ModelStatistics.__repr__` (lines
73–75): one line per `zip(device_profiles, total_energies)` pair, of
the form `Total energy for device [<device>] : <value> J/inf\n`. The
surrounding dividers/header/body are delegated to the formatting
collaborator (not under `src/`) and carry no claim-relevant data. -/
def repr_energy_lines (st : ModelStatistics) : List String :=
  (st.device_profiles.zip st.total_energies).map
    (fun p => "Total energy for device [" ++ p.1 ++ "] : " ++ ratStr p.2 ++ " J/inf\n")

/-- Per-record contribution to `total_params` (what one loop iteration
adds). -/
def paramsContrib (li : LayerInfo) : Int :=
  if li.is_recursive then 0
  else if li.is_leaf_layer then max li.num_params 0
  else max li.leftover_params 0

/-- Per-record contribution to `trainable_params`. -/
def trainableContrib (li : LayerInfo) : Int :=
  if li.is_recursive then 0
  else if li.is_leaf_layer then max li.trainable_params 0
  else max li.leftover_trainable_params 0

/-- Per-record contribution to `total_mult_adds`. -/
def multAddsContrib (li : LayerInfo) : Int :=
  if li.is_leaf_layer then li.macs else 0

/-- Per-record contribution to `total_param_bytes`. -/
def paramBytesContrib (li : LayerInfo) : Int :=
  if li.is_leaf_layer && !li.is_recursive then li.param_bytes else 0

/-- Per-record contribution to `total_output_bytes`. -/
def outputBytesContrib (li : LayerInfo) : Int :=
  if li.is_leaf_layer && decide (0 < li.num_params) then li.output_bytes * 2 else 0

lemma accumulate_total_params (t : Totals) (li : LayerInfo) :
    (accumulate_layer t li).total_params = t.total_params + paramsContrib li := by
  unfold accumulate_layer paramsContrib
  split_ifs <;> simp_all

lemma accumulate_trainable_params (t : Totals) (li : LayerInfo) :
    (accumulate_layer t li).trainable_params = t.trainable_params + trainableContrib li := by
  unfold accumulate_layer trainableContrib
  split_ifs <;> simp_all

lemma accumulate_total_mult_adds (t : Totals) (li : LayerInfo) :
    (accumulate_layer t li).total_mult_adds = t.total_mult_adds + multAddsContrib li := by
  unfold accumulate_layer multAddsContrib
  split_ifs <;> simp_all

lemma accumulate_total_param_bytes (t : Totals) (li : LayerInfo) :
    (accumulate_layer t li).total_param_bytes = t.total_param_bytes + paramBytesContrib li := by
  unfold accumulate_layer paramBytesContrib
  split_ifs <;> simp_all

lemma accumulate_total_output_bytes (t : Totals) (li : LayerInfo) :
    (accumulate_layer t li).total_output_bytes = t.total_output_bytes + outputBytesContrib li := by
  unfold accumulate_layer outputBytesContrib
  split_ifs <;> simp_all <;> omega

lemma foldl_total_params (l : List LayerInfo) (t : Totals) :
    (l.foldl accumulate_layer t).total_params =
      t.total_params + (l.map paramsContrib).sum := by
  induction l generalizing t with
  | nil => simp
  | cons hd tl ih =>
    simp only [List.foldl_cons, List.map_cons, List.sum_cons, ih,
      accumulate_total_params]
    ring

lemma foldl_trainable_params (l : List LayerInfo) (t : Totals) :
    (l.foldl accumulate_layer t).trainable_params =
      t.trainable_params + (l.map trainableContrib).sum := by
  induction l generalizing t with
  | nil => simp
  | cons hd tl ih =>
    simp only [List.foldl_cons, List.map_cons, List.sum_cons, ih,
      accumulate_trainable_params]
    ring

lemma foldl_total_mult_adds (l : List LayerInfo) (t : Totals) :
    (l.foldl accumulate_layer t).total_mult_adds =
      t.total_mult_adds + (l.map multAddsContrib).sum := by
  induction l generalizing t with
  | nil => simp
  | cons hd tl ih =>
    simp only [List.foldl_cons, List.map_cons, List.sum_cons, ih,
      accumulate_total_mult_adds]
    ring

lemma foldl_total_param_bytes (l : List LayerInfo) (t : Totals) :
    (l.foldl accumulate_layer t).total_param_bytes =
      t.total_param_bytes + (l.map paramBytesContrib).sum := by
  induction l generalizing t with
  | nil => simp
  | cons hd tl ih =>
    simp only [List.foldl_cons, List.map_cons, List.sum_cons, ih,
      accumulate_total_param_bytes]
    ring

lemma foldl_total_output_bytes (l : List LayerInfo) (t : Totals) :
    (l.foldl accumulate_layer t).total_output_bytes =
      t.total_output_bytes + (l.map outputBytesContrib).sum := by
  induction l generalizing t with
  | nil => simp
  | cons hd tl ih =>
    simp only [List.foldl_cons, List.map_cons, List.sum_cons, ih,
      accumulate_total_output_bytes]
    ring

lemma init_totals (l : List LayerInfo) (dp : List String) (st : ModelStatistics)
    (h : modelStatisticsInit l dp = some st) :
    st.totals = l.foldl accumulate_layer ⟨0, 0, 0, 0, 0⟩ := by
  cases l with
  | nil => simp [modelStatisticsInit] at h
  | cons hd tl =>
    simp only [modelStatisticsInit, Option.some.injEq] at h
    rw [← h]

lemma init_device_profiles (l : List LayerInfo) (dp : List String)
    (st : ModelStatistics) (h : modelStatisticsInit l dp = some st) :
    st.device_profiles = dp := by
  cases l with
  | nil => simp [modelStatisticsInit] at h
  | cons hd tl =>
    simp only [modelStatisticsInit, Option.some.injEq] at h
    rw [← h]

lemma map_sum_congr {α : Type} (l : List α) (f g : α → Int)
    (h : ∀ a ∈ l, f a = g a) : (l.map f).sum = (l.map g).sum := by
  induction l with
  | nil => simp
  | cons hd tl ih => simp_all

lemma sum_contrib_filter (l : List LayerInfo) (p : LayerInfo → Bool)
    (f : LayerInfo → Int) :
    (l.map (fun li => if p li then f li else 0)).sum = ((l.filter p).map f).sum := by
  induction l with
  | nil => simp
  | cons hd tl ih => by_cases hp : p hd <;> simp [hp, ih]

/-- The snapshot `modelStatisticsInit` builds on a non-empty layer
list (used to exhibit concrete constructions). -/
def initSnap (first : LayerInfo) (rest : List LayerInfo)
    (dp : List String) : ModelStatistics :=
  { summary_list := first :: rest
    device_profiles := dp
    total_energies := first.total_energy_contributions
    totals := (first :: rest).foldl accumulate_layer ⟨0, 0, 0, 0, 0⟩ }

lemma modelStatisticsInit_cons (first : LayerInfo) (rest : List LayerInfo)
    (dp : List String) :
    modelStatisticsInit (first :: rest) dp = some (initSnap first rest dp) := rfl

/-- Sample leaf, non-recursive record with positive counts. -/
def leafA : LayerInfo := ⟨true, false, 3, 2, 5, 7, 11, 0, 0, [1, 2]⟩

/-- Sample leaf, non-recursive record with negative parameter counts. -/
def leafNeg : LayerInfo := ⟨true, false, -4, -1, 6, 8, 13, 0, 0, [0]⟩

/-- Sample recursive leaf record (positive `num_params`). -/
def leafRec : LayerInfo := ⟨true, true, 9, 4, 10, 3, 17, 0, 0, [0]⟩

/-- Sample non-leaf, non-recursive record with leftover `-5`. -/
def containerNeg : LayerInfo := ⟨false, false, 0, 0, 0, 0, 0, -5, -5, [0]⟩

/-- C1: for an input sequence of only leaf, non-recursive records, the
constructed snapshot's `total_params` is the sum of the records'
`max(num_params, 0)` and `trainable_params` the sum of their
`max(trainable_params, 0)`. -/
theorem C1_leaf_only_totals (l : List LayerInfo) (dp : List String)
    (st : ModelStatistics)
    (hleaf : ∀ li ∈ l, li.is_leaf_layer = true ∧ li.is_recursive = false)
    (hinit : modelStatisticsInit l dp = some st) :
    st.totals.total_params = (l.map (fun li => max li.num_params 0)).sum ∧
    st.totals.trainable_params = (l.map (fun li => max li.trainable_params 0)).sum := by
  rw [init_totals l dp st hinit]
  constructor
  · rw [foldl_total_params]
    simp only [zero_add]
    exact map_sum_congr l _ _ fun a ha => by
      simp [paramsContrib, (hleaf a ha).1, (hleaf a ha).2]
  · rw [foldl_trainable_params]
    simp only [zero_add]
    exact map_sum_congr l _ _ fun a ha => by
      simp [trainableContrib, (hleaf a ha).1, (hleaf a ha).2]

/-- Witness for C1 at the concrete two-record sequence
`[leafA, leafNeg]`. -/
theorem C1_leaf_only_totals_witness :
    (initSnap leafA [leafNeg] ["d"]).totals.total_params =
      ([leafA, leafNeg].map (fun li => max li.num_params 0)).sum ∧
    (initSnap leafA [leafNeg] ["d"]).totals.trainable_params =
      ([leafA, leafNeg].map (fun li => max li.trainable_params 0)).sum :=
  C1_leaf_only_totals [leafA, leafNeg] ["d"] (initSnap leafA [leafNeg] ["d"])
    (by decide) rfl

/-- C2: a non-leaf record contributes its clamped
`leftover_params()`/`leftover_trainable_params()` exactly when
non-recursive, and (clamping) never decreases the running totals. -/
theorem C2_nonleaf_leftover (t : Totals) (li : LayerInfo)
    (h : li.is_leaf_layer = false) :
    (li.is_recursive = true → accumulate_layer t li = t) ∧
    (li.is_recursive = false →
      (accumulate_layer t li).total_params =
        t.total_params + max li.leftover_params 0 ∧
      (accumulate_layer t li).trainable_params =
        t.trainable_params + max li.leftover_trainable_params 0) ∧
    t.total_params ≤ (accumulate_layer t li).total_params ∧
    t.trainable_params ≤ (accumulate_layer t li).trainable_params := by
  unfold accumulate_layer
  cases hrec : li.is_recursive <;> simp_all

/-- Witness for C2 at a concrete container record with leftover `-5`:
the totals are unchanged, hence do not decrease. -/
theorem C2_nonleaf_leftover_witness :
    (accumulate_layer ⟨1, 2, 3, 4, 5⟩ containerNeg).total_params =
      (⟨1, 2, 3, 4, 5⟩ : Totals).total_params + max containerNeg.leftover_params 0 ∧
    (⟨1, 2, 3, 4, 5⟩ : Totals).total_params ≤
      (accumulate_layer ⟨1, 2, 3, 4, 5⟩ containerNeg).total_params :=
  ⟨((C2_nonleaf_leftover ⟨1, 2, 3, 4, 5⟩ containerNeg (by decide)).2.1 (by decide)).1,
    (C2_nonleaf_leftover ⟨1, 2, 3, 4, 5⟩ containerNeg (by decide)).2.2.1⟩

/-- C3: a recursive leaf record adds its `macs` to `total_mult_adds`
but leaves `total_params`, `trainable_params` and `total_param_bytes`
unchanged. -/
theorem C3_recursive_leaf (t : Totals) (li : LayerInfo)
    (hleaf : li.is_leaf_layer = true) (hrec : li.is_recursive = true) :
    (accumulate_layer t li).total_mult_adds = t.total_mult_adds + li.macs ∧
    (accumulate_layer t li).total_params = t.total_params ∧
    (accumulate_layer t li).trainable_params = t.trainable_params ∧
    (accumulate_layer t li).total_param_bytes = t.total_param_bytes := by
  unfold accumulate_layer
  simp only [hleaf, hrec, if_true]
  split_ifs <;> simp

/-- Witness for C3 at the concrete recursive leaf `leafRec`. -/
theorem C3_recursive_leaf_witness :
    (accumulate_layer ⟨1, 2, 3, 4, 5⟩ leafRec).total_mult_adds =
      (⟨1, 2, 3, 4, 5⟩ : Totals).total_mult_adds + leafRec.macs ∧
    (accumulate_layer ⟨1, 2, 3, 4, 5⟩ leafRec).total_params =
      (⟨1, 2, 3, 4, 5⟩ : Totals).total_params ∧
    (accumulate_layer ⟨1, 2, 3, 4, 5⟩ leafRec).trainable_params =
      (⟨1, 2, 3, 4, 5⟩ : Totals).trainable_params ∧
    (accumulate_layer ⟨1, 2, 3, 4, 5⟩ leafRec).total_param_bytes =
      (⟨1, 2, 3, 4, 5⟩ : Totals).total_param_bytes :=
  C3_recursive_leaf ⟨1, 2, 3, 4, 5⟩ leafRec (by decide) (by decide)

/-- Sample leaf, non-recursive record with `num_params = 0` but
nonzero (negative) `param_bytes`. -/
def c4Layer : LayerInfo := ⟨true, false, 0, 0, 0, 0, -7, 0, 0, [0]⟩

/-- C4 counterexample: a leaf, non-recursive record with
`num_params = 0` and `param_bytes = -7` still contributes its
`param_bytes` (the accumulation at line 47 is not gated on
`num_params > 0`), so the snapshot's `total_param_bytes` is `-7`,
while the claim predicts the sum over records with `num_params > 0`
(here `0`) and `total_param_bytes ≥ 0`. -/
theorem C4_counterexample :
    (modelStatisticsInit [c4Layer] []).map (fun st => st.totals.total_param_bytes) =
      some (-7) ∧
    (([c4Layer].filter
        (fun li => li.is_leaf_layer && !li.is_recursive && decide (0 < li.num_params))).map
      (fun li => li.param_bytes)).sum = 0 ∧
    ¬((-7 : Int) = 0 ∧ (0 : Int) ≤ (-7 : Int)) := by
  with_unfolding_all decide

/-- C4 amended: the snapshot's `total_param_bytes` is the sum of
`param_bytes` over exactly the leaf, non-recursive records — with no
`num_params > 0` gate — and can be negative when a record's
`param_bytes` is negative. -/
theorem C4_param_bytes_amended (l : List LayerInfo) (dp : List String)
    (st : ModelStatistics) (hinit : modelStatisticsInit l dp = some st) :
    st.totals.total_param_bytes =
      ((l.filter (fun li => li.is_leaf_layer && !li.is_recursive)).map
        (fun li => li.param_bytes)).sum := by
  rw [init_totals l dp st hinit, foldl_total_param_bytes]
  simp only [zero_add, paramBytesContrib]
  exact sum_contrib_filter l _ _

/-- Witness for C4 (amended) at the concrete sequence
`[leafA, leafRec, c4Layer]`. -/
theorem C4_param_bytes_amended_witness :
    (initSnap leafA [leafRec, c4Layer] ["d"]).totals.total_param_bytes =
      (([leafA, leafRec, c4Layer].filter
          (fun li => li.is_leaf_layer && !li.is_recursive)).map
        (fun li => li.param_bytes)).sum :=
  C4_param_bytes_amended [leafA, leafRec, c4Layer] ["d"]
    (initSnap leafA [leafRec, c4Layer] ["d"]) rfl

/-- C5: the snapshot's `total_output_bytes` is the sum of
`2 × output_bytes` over all leaf records with `num_params > 0`,
recursive leaves included (the doubling happens before the recursive
skip). -/
theorem C5_output_bytes (l : List LayerInfo) (dp : List String)
    (st : ModelStatistics) (hinit : modelStatisticsInit l dp = some st) :
    st.totals.total_output_bytes =
      ((l.filter (fun li => li.is_leaf_layer && decide (0 < li.num_params))).map
        (fun li => 2 * li.output_bytes)).sum := by
  rw [init_totals l dp st hinit, foldl_total_output_bytes]
  simp only [zero_add]
  have h : (l.map outputBytesContrib).sum =
      ((l.filter (fun li => li.is_leaf_layer && decide (0 < li.num_params))).map
        (fun li => li.output_bytes * 2)).sum :=
    sum_contrib_filter l _ _
  rw [h]
  exact map_sum_congr _ _ _ fun a _ => mul_comm _ _

/-- Witness for C5 at the concrete sequence `[leafA, leafRec]`
(the recursive leaf `leafRec` has `num_params > 0` and contributes). -/
theorem C5_output_bytes_witness :
    (initSnap leafA [leafRec] ["d"]).totals.total_output_bytes =
      (([leafA, leafRec].filter
          (fun li => li.is_leaf_layer && decide (0 < li.num_params))).map
        (fun li => 2 * li.output_bytes)).sum :=
  C5_output_bytes [leafA, leafRec] ["d"] (initSnap leafA [leafRec] ["d"]) rfl

/-- C6 counterexample: constructing with one device profile but a
first record carrying two energy contributions succeeds — no check
compares the device-profile count with the seed
`total_energy_contributions` length, contrary to the claim that such
a mismatch fails fast. -/
theorem C6_counterexample :
    (modelStatisticsInit [leafA] ["only"]).isSome = true ∧
    leafA.total_energy_contributions.length ≠ (["only"] : List String).length := by
  with_unfolding_all decide

/-- C6 amended: construction fails (no snapshot) exactly when the
layer sequence is empty — reading `summary_list[0]` raises
`IndexError` — while a device-profile/energy-length mismatch is not
checked and constructs successfully. -/
theorem C6_empty_fails (l : List LayerInfo) (dp : List String) :
    modelStatisticsInit l dp = none ↔ l = [] := by
  cases l <;> simp [modelStatisticsInit]

/-- C7: `to_readable` with `AUTO` selects the unit by descending
thresholds (`≥ 1e12` terabytes, `≥ 1e9` gigabytes, otherwise
megabytes), dividing by the selected scale; with an explicit unit it
returns that unit unchanged and divides by its fixed conversion
factor. -/
theorem C7_to_readable :
    (∀ n : ℚ, 10 ^ 12 ≤ n →
      to_readable n Units.AUTO = (Units.TERABYTES, n / 10 ^ 12)) ∧
    (∀ n : ℚ, 10 ^ 9 ≤ n → n < 10 ^ 12 →
      to_readable n Units.AUTO = (Units.GIGABYTES, n / 10 ^ 9)) ∧
    (∀ n : ℚ, n < 10 ^ 9 →
      to_readable n Units.AUTO = (Units.MEGABYTES, n / 10 ^ 6)) ∧
    (∀ (n : ℚ) (u : Units), u ≠ Units.AUTO →
      to_readable n u = (u, n / CONVERSION_FACTORS u)) := by
  refine ⟨fun n h => ?_, fun n h1 h2 => ?_, fun n h => ?_, fun n u hu => ?_⟩
  · unfold to_readable
    rw [if_pos rfl, if_pos h]
  · unfold to_readable
    rw [if_pos rfl, if_neg (not_le.mpr h2), if_pos h1]
  · unfold to_readable
    have h12 : ¬(10 ^ 12 ≤ n) := not_le.mpr (h.trans (by norm_num))
    rw [if_pos rfl, if_neg h12, if_neg (not_le.mpr h)]
  · unfold to_readable
    rw [if_neg hu]

/-- Witness for C7 at the spec's concrete inputs: `1e12` (terabytes),
`1e9` (gigabytes), `999_999_999` (below the `1e9` threshold,
megabytes), and the explicit unit `GIGABYTES` on `2_000_000`. -/
theorem C7_to_readable_witness :
    to_readable (10 ^ 12) Units.AUTO = (Units.TERABYTES, 10 ^ 12 / 10 ^ 12) ∧
    to_readable (10 ^ 9) Units.AUTO = (Units.GIGABYTES, 10 ^ 9 / 10 ^ 9) ∧
    to_readable 999999999 Units.AUTO = (Units.MEGABYTES, 999999999 / 10 ^ 6) ∧
    to_readable 2000000 Units.GIGABYTES =
      (Units.GIGABYTES, 2000000 / CONVERSION_FACTORS Units.GIGABYTES) :=
  ⟨C7_to_readable.1 _ (by norm_num),
    C7_to_readable.2.1 _ (by norm_num) (by norm_num),
    C7_to_readable.2.2.1 _ (by norm_num),
    C7_to_readable.2.2.2 _ _ (by decide)⟩

/-- C8 counterexample: at `12_340_000_000` with explicit `GIGABYTES`,
`format_output_num` produces `" (GIGABYTES): 12.34"` — the unit label
precedes the colon — not the claimed `": 12.34 (GIGABYTES)"`. -/
theorem C8_counterexample :
    format_output_num 12340000000 Units.GIGABYTES = " (GIGABYTES): 12.34" ∧
    " (GIGABYTES): 12.34" ≠ ": 12.34 (GIGABYTES)" := by
  with_unfolding_all decide

/-- C8 amended: `format_output_num` renders a whole converted value as
an integer with thousands separators and a non-whole value with
exactly two decimal places and thousands separators, and PREPENDS the
unit label in parentheses before the colon (producing
`" (GIGABYTES): 12.34"`), omitting the parenthetical entirely when
the resolved unit is the "no unit" sentinel (producing `": 12.34"`). -/
theorem C8_format_amended :
    (∀ (num : ℚ) (units : Units), (to_readable num units).1 ≠ Units.NONE →
      format_output_num num units =
        " (" ++ unitsStr (to_readable num units).1 ++ ")" ++ ": " ++
          renderedNum (to_readable num units).2) ∧
    (∀ (num : ℚ) (units : Units), (to_readable num units).1 = Units.NONE →
      format_output_num num units = ": " ++ renderedNum (to_readable num units).2) ∧
    renderedNum 5 = "5" ∧
    renderedNum (2469 / 2) = "1,234.50" ∧
    renderedNum 1234500000 = "1,234,500,000" := by
  refine ⟨fun num units h => ?_, fun num units h => ?_, ?_, ?_, ?_⟩
  · unfold format_output_num renderedNum
    dsimp only
    rw [if_neg h]
    split_ifs <;> rfl
  · unfold format_output_num renderedNum
    dsimp only
    rw [if_pos h]
    split_ifs <;> simp
  · with_unfolding_all decide
  · with_unfolding_all decide
  · with_unfolding_all decide

/-- Witness for C8 (amended): the unit label precedes the colon for
the explicit unit `GIGABYTES`, and is omitted for the `NONE`
sentinel. -/
theorem C8_format_amended_witness :
    format_output_num 12340000000 Units.GIGABYTES =
      " (" ++ unitsStr (to_readable 12340000000 Units.GIGABYTES).1 ++ ")" ++ ": " ++
        renderedNum (to_readable 12340000000 Units.GIGABYTES).2 ∧
    format_output_num (2469 / 2) Units.NONE =
      ": " ++ renderedNum (to_readable (2469 / 2) Units.NONE).2 :=
  ⟨C8_format_amended.1 _ _ (by with_unfolding_all decide),
    C8_format_amended.2.1 _ _ (by with_unfolding_all decide)⟩

/-- C9: for a snapshot whose `total_energies` length matches the
device-profile count (the documented construction invariant),
rendering produces exactly one energy line per device profile, in
order, each pairing that profile's string with the raw corresponding
entry of `total_energies`. -/
theorem C9_energy_lines (l : List LayerInfo) (dp : List String)
    (st : ModelStatistics) (hinit : modelStatisticsInit l dp = some st)
    (hlen : st.total_energies.length = dp.length) :
    (repr_energy_lines st).length = dp.length ∧
    ∀ (i : Nat) (h1 : i < dp.length) (h2 : i < st.total_energies.length)
      (h3 : i < (repr_energy_lines st).length),
      (repr_energy_lines st).get ⟨i, h3⟩ =
        "Total energy for device [" ++ dp.get ⟨i, h1⟩ ++ "] : " ++
          ratStr (st.total_energies.get ⟨i, h2⟩) ++ " J/inf\n" := by
  have hdp := init_device_profiles l dp st hinit
  subst hdp
  constructor
  · simp [repr_energy_lines, hlen]
  · intro i h1 h2 h3
    simp [repr_energy_lines, List.get_eq_getElem, List.getElem_map,
      List.getElem_zip]

/-- Witness for C9 at a concrete snapshot with two device profiles and
two seed energies. -/
theorem C9_energy_lines_witness :
    (repr_energy_lines (initSnap leafA [] ["cpu", "gpu"])).length =
      (["cpu", "gpu"] : List String).length :=
  (C9_energy_lines [leafA] ["cpu", "gpu"] (initSnap leafA [] ["cpu", "gpu"])
    rfl (by decide)).1

/-- C10: when the device-profile count and the `total_energies` length
disagree, rendering still succeeds (the zip is total) and emits
exactly `min` of the two lengths many lines, pairing index-aligned
prefixes and silently dropping the unpaired tail. -/
theorem C10_energy_lines_min (l : List LayerInfo) (dp : List String)
    (st : ModelStatistics) (hinit : modelStatisticsInit l dp = some st) :
    (repr_energy_lines st).length = min dp.length st.total_energies.length ∧
    ∀ (i : Nat) (h1 : i < dp.length) (h2 : i < st.total_energies.length)
      (h3 : i < (repr_energy_lines st).length),
      (repr_energy_lines st).get ⟨i, h3⟩ =
        "Total energy for device [" ++ dp.get ⟨i, h1⟩ ++ "] : " ++
          ratStr (st.total_energies.get ⟨i, h2⟩) ++ " J/inf\n" := by
  have hdp := init_device_profiles l dp st hinit
  subst hdp
  constructor
  · simp [repr_energy_lines]
  · intro i h1 h2 h3
    simp [repr_energy_lines, List.get_eq_getElem, List.getElem_map,
      List.getElem_zip]

/-- Witness for C10 at a concrete mismatched snapshot: one device
profile against two seed energies yields exactly one line. -/
theorem C10_energy_lines_min_witness :
    (repr_energy_lines (initSnap leafA [] ["cpu"])).length =
      min (["cpu"] : List String).length
        (initSnap leafA [] ["cpu"]).total_energies.length :=
  (C10_energy_lines_min [leafA] ["cpu"] (initSnap leafA [] ["cpu"]) rfl).1

end SnnTorch
